import Mathlib

/-!
Shallow embedding of `packages/core/src/core/contentGenerator.ts`: the
DeepSeek compatibility adapter (message normalizer, response adapter,
stream reassembler, token estimator, generator factory), together with
proofs of the specified properties.

JavaScript conventions used throughout the embedding:
  - an absent / `undefined` / `null` field is `Option.none`;
  - `a || b` on strings is `jsOrStr`: the empty string is falsy, so it
    falls through to the default;
  - a non-string JS value that the code only ever `JSON.stringify`s is
    represented by its stringification (`ContentItem.other`), since the
    code never inspects its structure.
-/

/-- JS `a || b` for an optional string `a`: `undefined`, `null` and the
empty string are all falsy and select the default `b`. -/
def jsOrStr (a : Option String) (b : String) : String :=
  match a with
  | none => b
  | some s => if s = "" then b else s

/-- An element of a generic `contents` array: either a JS string (kept
as-is by the code) or any other JS value, represented by the string that
`JSON.stringify` produces for it (the code never looks inside it). -/
inductive ContentItem where
  | str (s : String)
  | other (json : String)
deriving DecidableEq, Repr

/-- `typeof content === 'string' ? content : JSON.stringify(content)`. -/
def contentItemToString : ContentItem → String
  | .str s => s
  | .other j => j

/-- `ChatCompletionMessageParam`: one role-tagged chat message. -/
structure ChatMessage where
  role : String
  content : String
deriving DecidableEq, Repr

/-- `GenerateContentParameters` from the source: a legacy-shaped request
with optional `contents`, `model`, `messages`, `max_tokens`,
`temperature` (the numeric overrides are carried opaquely; the code never
computes with them). -/
structure GenerateContentParameters where
  contents : Option (List ContentItem) := none
  model : Option String := none
  messages : Option (List ChatMessage) := none
  max_tokens : Option Nat := none
  temperature : Option Int := none
deriving DecidableEq, Repr

/-- The message object inside a `ChatCompletion` choice, as the adapter
reads it (`choice.message?.content`, `choice.message?.role`): both fields
may be absent or null. -/
structure CompletionMessage where
  content : Option String := none
  role : Option String := none
deriving DecidableEq, Repr

/-- One choice of a `ChatCompletion` as the adapter reads it. -/
structure CompletionChoice where
  index : Option Nat := none
  message : Option CompletionMessage := none
  finish_reason : Option String := none
deriving DecidableEq, Repr

/-- Backend usage totals (`prompt_tokens`, `completion_tokens`,
`total_tokens`). -/
structure Usage where
  prompt_tokens : Nat
  completion_tokens : Nat
  total_tokens : Nat
deriving DecidableEq, Repr

/-- A complete (non-streaming) Target Service response, as the adapter
reads it (`response.choices?.[0]?...`: the choices array may be absent). -/
structure ChatCompletion where
  id : String := ""
  object : String := ""
  created : Nat := 0
  model : String := ""
  choices : Option (List CompletionChoice) := none
  usage : Option Usage := none
deriving DecidableEq, Repr

/-- One mapped choice of the legacy response produced by
`convertOpenAIToGemini`: content and role are always present there. -/
structure LegacyChoiceMessage where
  content : String
  role : String
deriving DecidableEq, Repr

/-- One choice of a `GenerateContentResponse`. -/
structure LegacyChoice where
  message : LegacyChoiceMessage
  finish_reason : Option String
deriving DecidableEq, Repr

/-- `GenerateContentResponse` (the legacy Gemini-shaped response):
`functionCalls` is a list of opaque values (always empty here),
`executableCode` / `codeExecutionResult` are optional opaque values. -/
structure GenerateContentResponse where
  text : String
  choices : Option (List LegacyChoice)
  data : ChatCompletion
  functionCalls : List String
  executableCode : Option String
  codeExecutionResult : Option String
deriving DecidableEq, Repr

/-- `convertOpenAIToGemini` (contentGenerator.ts lines 223-238): project a
complete Target Service response onto the legacy shape. -/
def convertOpenAIToGemini (response : ChatCompletion) : GenerateContentResponse :=
  { text := jsOrStr
      (((response.choices.bind List.head?).bind CompletionChoice.message).bind
        CompletionMessage.content) ""
  , choices := response.choices.map (List.map fun choice =>
      { message :=
          { content := jsOrStr (choice.message.bind CompletionMessage.content) ""
          , role := jsOrStr (choice.message.bind CompletionMessage.role) "assistant" }
      , finish_reason := choice.finish_reason })
  , data := response
  , functionCalls := []
  , executableCode := none
  , codeExecutionResult := none }

/-- The structural invariant of the spec: `text` equals the first mapped
choice's `message.content` when `choices` is non-empty, and the empty
string when `choices` is empty or absent. -/
def legacyInvariant (r : GenerateContentResponse) : Prop :=
  match r.choices with
  | some (c :: _) => r.text = c.message.content
  | some [] => r.text = ""
  | none => r.text = ""

/-- The `delta` object of a stream-chunk choice: at most one role
fragment and one content fragment. -/
structure Delta where
  role : Option String := none
  content : Option String := none
deriving DecidableEq, Repr

/-- One choice of a streaming chunk, as `convertStreamToGenerator` reads
it (`choice.index`, `choice.delta?.role`, `choice.delta?.content`,
`choice.finish_reason`). -/
structure StreamChoice where
  index : Option Nat := none
  delta : Option Delta := none
  finish_reason : Option String := none
deriving DecidableEq, Repr

/-- One streaming chunk as `convertStreamToGenerator` reads it. -/
structure StreamChunk where
  id : String := ""
  created : Nat := 0
  model : String := ""
  choices : Option (List StreamChoice) := none
  usage : Option Usage := none
deriving DecidableEq, Repr

/-- The per-chunk body of `convertStreamToGenerator` (contentGenerator.ts
lines 269-283): synthesize a complete-response-shaped envelope from one
streaming chunk. -/
def chunkToCompletion (chunk : StreamChunk) : ChatCompletion :=
  { id := chunk.id
  , object := "chat.completion"
  , created := chunk.created
  , model := chunk.model
  , choices := some ((chunk.choices.map (List.map fun choice =>
      ({ index := choice.index
       , message := some
           { role := some (jsOrStr (choice.delta.bind Delta.role) "assistant")
           , content := some (jsOrStr (choice.delta.bind Delta.content) "") }
       , finish_reason := choice.finish_reason } : CompletionChoice))).getD [])
  , usage := some (chunk.usage.getD
      { prompt_tokens := 0, completion_tokens := 0, total_tokens := 0 }) }

/-- `convertStreamToGenerator` (contentGenerator.ts lines 266-286) on a
finite chunk sequence: for each chunk, in arrival order, synthesize the
complete-response envelope and feed it through `convertOpenAIToGemini`. -/
def convertStreamToGenerator (stream : List StreamChunk) :
    List GenerateContentResponse :=
  stream.map fun chunk => convertOpenAIToGemini (chunkToCompletion chunk)

/-- The `ChatCompletionCreateParamsBase` value built by
`convertGeminiToOpenAI` (only the fields the adapter sets). -/
structure ChatCompletionCreateParams where
  messages : List ChatMessage
  model : String
  max_tokens : Option Nat
  temperature : Option Int
deriving DecidableEq, Repr

/-- `convertGeminiToOpenAI` (contentGenerator.ts lines 199-221): normalize
a legacy request into a Target Service request. `defaultModel` is the
generator's configured model (`this.model`); `request.model || this.model`
is JS string-or, so an empty-string override falls back to the default. -/
def convertGeminiToOpenAI (defaultModel : String)
    (request : GenerateContentParameters) : ChatCompletionCreateParams :=
  let messages : List ChatMessage :=
    match request.messages with
    | some ms => ms
    | none =>
      match request.contents with
      | some contents =>
          contents.enum.map fun p =>
            { role := if p.1 % 2 = 0 then "user" else "assistant"
            , content := contentItemToString p.2 }
      | none => [{ role := "user", content := "Hello" }]
  { messages := messages
  , model := jsOrStr request.model defaultModel
  , max_tokens := request.max_tokens
  , temperature := request.temperature }

/-- `generateContent` (lines 240-251), with the transport call
(`openai.chat.completions.create` at `stream:false`) abstracted as a
function from the built request to a completion. -/
def generateContent (defaultModel : String)
    (transport : ChatCompletionCreateParams → ChatCompletion)
    (request : GenerateContentParameters) : GenerateContentResponse :=
  convertOpenAIToGemini (transport (convertGeminiToOpenAI defaultModel request))

/-- `generateContentStream` (lines 253-264), with the transport call
(`stream:true`) abstracted as a function from the built request to the
finite chunk sequence it delivers. -/
def generateContentStream (defaultModel : String)
    (transport : ChatCompletionCreateParams → List StreamChunk)
    (request : GenerateContentParameters) : List GenerateContentResponse :=
  convertStreamToGenerator (transport (convertGeminiToOpenAI defaultModel request))

/-- `CountTokensParameters`: `contents` is a required array. -/
structure CountTokensParameters where
  model : String
  contents : List ContentItem
deriving DecidableEq, Repr

/-- `CountTokensResponse`. -/
structure CountTokensResponse where
  totalTokens : Nat
deriving DecidableEq, Repr

/-- `countTokens` (lines 288-301): join the stringified contents with a
single space and estimate `Math.ceil(length / 4)` (JS float division is
exact here, embedded as rational ceiling). -/
def countTokens (request : CountTokensParameters) : CountTokensResponse :=
  let totalContent := String.intercalate " " (request.contents.map contentItemToString)
  { totalTokens := (Int.ceil ((totalContent.length : ℚ) / 4)).toNat }

/-- `EmbedContentParameters`. -/
structure EmbedContentParameters where
  model : String
  content : ContentItem
deriving DecidableEq, Repr

/-- `EmbedContentResponse`: a numeric vector. -/
structure EmbedContentResponse where
  embedding : List Int
deriving DecidableEq, Repr

/-- `embedContent` (lines 303-308): DeepSeek has no embeddings, so the
code returns `new Array(1536).fill(0)` — a total function, it cannot
throw. -/
def embedContent (_request : EmbedContentParameters) : EmbedContentResponse :=
  { embedding := List.replicate 1536 0 }

/-- The `AuthType` enum (lines 85-92). -/
inductive AuthType where
  | USE_DEEPSEEK
  | LOGIN_WITH_GOOGLE
  | USE_GEMINI
  | USE_VERTEX_AI
  | CLOUD_SHELL
deriving DecidableEq, Repr

/-- The string value of each `AuthType` enum member. -/
def AuthType.value : AuthType → String
  | .USE_DEEPSEEK => "deepseek-api-key"
  | .LOGIN_WITH_GOOGLE => "oauth-personal"
  | .USE_GEMINI => "gemini-api-key"
  | .USE_VERTEX_AI => "vertex-ai"
  | .CLOUD_SHELL => "cloud-shell"

/-- JS template interpolation of the optional `config.authType`
(`undefined` prints as the string "undefined"). -/
def authTypeInterp : Option AuthType → String
  | none => "undefined"
  | some a => a.value

/-- `ContentGeneratorConfig` (lines 94-100). -/
structure ContentGeneratorConfig where
  model : String
  apiKey : Option String := none
  baseURL : Option String := none
  authType : Option AuthType := none
  proxy : Option String := none
deriving DecidableEq, Repr

/-- The state captured by `new OpenAI({...})`: the transport client. -/
structure OpenAIClient where
  apiKey : String
  baseURL : Option String
  userAgent : String
deriving DecidableEq, Repr

/-- The generator object `createContentGenerator` resolves to: either the
DeepSeek generator holding its transport client, or the legacy
code-assist generator (an external collaborator, kept abstract). -/
inductive ContentGeneratorImpl where
  | deepseek (client : OpenAIClient) (model : String)
  | codeAssist (authType : AuthType)
deriving DecidableEq, Repr

/-- JS falsiness of an optional string (`!config.apiKey`): absent, null
and the empty string are falsy. -/
def jsFalsyStr : Option String → Bool
  | none => true
  | some s => s = ""

/-- `createContentGenerator` (lines 142-187). The result is paired with
the list of OpenAI transport clients constructed along the way, in
construction order, so that "no network object is constructed before the
failure" is a checkable statement. -/
def createContentGenerator (userAgent : String) (config : ContentGeneratorConfig) :
    Except String ContentGeneratorImpl × List OpenAIClient :=
  if config.authType = some AuthType.USE_DEEPSEEK then
    if jsFalsyStr config.apiKey then
      (.error "DeepSeek API key is required. Please set DEEPSEEK_API_KEY environment variable.",
       [])
    else
      let openai : OpenAIClient :=
        { apiKey := config.apiKey.getD "", baseURL := config.baseURL, userAgent := userAgent }
      (.ok (.deepseek openai config.model), [openai])
  else if config.authType = some AuthType.LOGIN_WITH_GOOGLE ∨
          config.authType = some AuthType.CLOUD_SHELL then
    (.ok (.codeAssist (config.authType.getD AuthType.LOGIN_WITH_GOOGLE)), [])
  else
    (.error ("Error creating contentGenerator: Unsupported authType: " ++
      authTypeInterp config.authType), [])

/-- A sample streaming chunk carrying a content fragment. -/
def demoChunkA : StreamChunk :=
  { id := "chunk-1", created := 10, model := "deepseek-chat"
  , choices := some [{ index := some 0
                     , delta := some { role := some "assistant", content := some "Hel" }
                     , finish_reason := none }]
  , usage := none }

/-- A sample streaming chunk carrying a final fragment and usage. -/
def demoChunkB : StreamChunk :=
  { id := "chunk-2", created := 11, model := "deepseek-chat"
  , choices := some [{ index := some 0
                     , delta := some { content := some "lo" }
                     , finish_reason := some "stop" }]
  , usage := some { prompt_tokens := 3, completion_tokens := 2, total_tokens := 5 } }

/-- A streaming chunk whose delta carries an empty-string role: the code's
`choice.delta?.role || 'assistant'` treats it as falsy. -/
def chunkRoleEmpty : StreamChunk :=
  { id := "chunk-3", created := 12, model := "deepseek-chat"
  , choices := some [{ index := some 0
                     , delta := some { role := some "", content := some "x" }
                     , finish_reason := none }]
  , usage := none }

/-- A sample request carrying a generic contents sequence (one of them a
non-string value, represented by its JSON stringification "7"). -/
def demoContentsRequest : GenerateContentParameters :=
  { contents := some [.str "a", .other "7", .str "c"] }

/-- A sample request carrying an explicit message sequence. -/
def demoMessagesRequest : GenerateContentParameters :=
  { messages := some [{ role := "system", content := "be nice" },
                      { role := "user", content := "hi" }] }

/-- A sample request whose model override is the empty string. -/
def demoEmptyModelRequest : GenerateContentParameters :=
  { contents := some [.str "q"], model := some "" }

/-- A sample non-streaming transport: echoes the request model back. -/
def demoTransport (params : ChatCompletionCreateParams) : ChatCompletion :=
  { id := "resp-1", object := "chat.completion", created := 1
  , model := params.model
  , choices := some [{ index := some 0
                     , message := some { content := some "ok", role := some "assistant" }
                     , finish_reason := some "stop" }]
  , usage := some { prompt_tokens := 1, completion_tokens := 1, total_tokens := 2 } }

/-- A sample streaming transport: delivers the two demo chunks. -/
def demoStreamTransport (_params : ChatCompletionCreateParams) : List StreamChunk :=
  [demoChunkA, demoChunkB]

/-- A DeepSeek-mode config with no API key. -/
def demoMissingKeyConfig : ContentGeneratorConfig :=
  { model := "deepseek-chat", authType := some AuthType.USE_DEEPSEEK }

/-- A config whose auth mode falls outside the supported dispatch arms. -/
def demoUnsupportedConfig : ContentGeneratorConfig :=
  { model := "deepseek-chat", apiKey := some "k", authType := some AuthType.USE_GEMINI }

/-- A sample embedding request. -/
def demoEmbedRequest : EmbedContentParameters :=
  { model := "deepseek-chat", content := .str "hello" }

/-- Shared lemma: the response adapter always establishes the structural
invariant relating `text` and `choices`. -/
theorem legacyInvariant_of_convert (response : ChatCompletion) :
    legacyInvariant (convertOpenAIToGemini response) := by
  rcases response with ⟨id, obj, created, model, choices, usage⟩
  rcases choices with _ | ⟨_ | ⟨c, cs⟩⟩ <;>
    simp [convertOpenAIToGemini, legacyInvariant, jsOrStr]

/-- C1: every Target Service response converted by `convertOpenAIToGemini`
yields a legacy response whose `text` equals `choices[0].message.content`
whenever the choices sequence is non-empty, and the empty string when it
is empty. -/
theorem convertOpenAIToGemini_legacyInvariant (response : ChatCompletion) :
    legacyInvariant (convertOpenAIToGemini response) :=
  legacyInvariant_of_convert response

/-- C2: on a finite sequence of N stream chunks, the stream reassembler
yields exactly N legacy fragments, the i-th fragment is the i-th chunk's
synthesized envelope fed through the response adapter (same order, same
projection), and every fragment satisfies the structural invariant. -/
theorem convertStreamToGenerator_spec (stream : List StreamChunk) :
    (convertStreamToGenerator stream).length = stream.length ∧
    (∀ i : Nat, (convertStreamToGenerator stream)[i]? =
      (stream[i]?).map fun chunk => convertOpenAIToGemini (chunkToCompletion chunk)) ∧
    ∀ r ∈ convertStreamToGenerator stream, legacyInvariant r := by
  refine ⟨by simp [convertStreamToGenerator],
          fun i => by simp [convertStreamToGenerator], ?_⟩
  intro r hr
  simp only [convertStreamToGenerator, List.mem_map] at hr
  obtain ⟨c, -, rfl⟩ := hr
  exact legacyInvariant_of_convert _

/-- Witness for C2 at a concrete two-chunk stream. -/
theorem convertStreamToGenerator_spec_witness :
    (convertStreamToGenerator [demoChunkA, demoChunkB]).length = 2 ∧
    (convertStreamToGenerator [demoChunkA, demoChunkB])[1]? =
      some (convertOpenAIToGemini (chunkToCompletion demoChunkB)) ∧
    legacyInvariant (convertOpenAIToGemini (chunkToCompletion demoChunkB)) :=
  ⟨((convertStreamToGenerator_spec [demoChunkA, demoChunkB]).1).trans rfl,
   ((convertStreamToGenerator_spec [demoChunkA, demoChunkB]).2.1 1).trans rfl,
   (convertStreamToGenerator_spec [demoChunkA, demoChunkB]).2.2 _
     (by simp [convertStreamToGenerator])⟩

/-- C9 counterexample: at a chunk whose delta carries the empty-string
role, the synthesized envelope's `message.role` values differ from the
chunk's delta role values — the code substitutes `"assistant"` for a
present-but-empty role, so the delta role is not always copied. -/
theorem chunkToCompletion_role_not_copied :
    ((chunkToCompletion chunkRoleEmpty).choices.getD []).map
        (fun c => c.message.bind CompletionMessage.role) ≠
      (chunkRoleEmpty.choices.getD []).map
        (fun c => c.delta.bind Delta.role) := by
  decide

/-- C9 (amended): the synthesized envelope copies the chunk's id, model
and created timestamp; maps each choice's delta role and content into
`message.role` / `message.content`, defaulting the role to `"assistant"`
when the delta omits it *or it is the empty string*, and the content to
`""` when omitted; and defaults a missing usage object to all-zero
fields. -/
theorem chunkToCompletion_spec (chunk : StreamChunk) :
    (chunkToCompletion chunk).id = chunk.id ∧
    (chunkToCompletion chunk).model = chunk.model ∧
    (chunkToCompletion chunk).created = chunk.created ∧
    (chunkToCompletion chunk).choices = some ((chunk.choices.getD []).map fun choice =>
      { index := choice.index
      , message := some
          { role := some (match choice.delta.bind Delta.role with
                          | none => "assistant"
                          | some r => if r = "" then "assistant" else r)
          , content := some ((choice.delta.bind Delta.content).getD "") }
      , finish_reason := choice.finish_reason }) ∧
    (chunkToCompletion chunk).usage =
      some (chunk.usage.getD { prompt_tokens := 0, completion_tokens := 0, total_tokens := 0 }) := by
  rcases chunk with ⟨id, created, model, choices, usage⟩
  refine ⟨rfl, rfl, rfl, ?_, rfl⟩
  cases choices with
  | none => rfl
  | some l =>
    simp only [chunkToCompletion, Option.map_some, Option.getD_some, Option.some.injEq]
    refine List.map_congr_left fun choice _ => ?_
    rcases choice with ⟨idx, delta, fin⟩
    rcases delta with _ | ⟨r, c⟩
    · rfl
    · rcases r with _ | r <;> rcases c with _ | c <;>
        simp [jsOrStr, Option.getD] <;> try (intro h; exact h.symm)

/-- C3: with no explicit messages and a generic contents sequence, the
normalizer maps element i to role `"user"` when i is even and
`"assistant"` when i is odd, keeping strings as-is and JSON-stringifying
non-strings. -/
theorem convertGeminiToOpenAI_contents_parity (defaultModel : String)
    (request : GenerateContentParameters) (contents : List ContentItem)
    (hmsg : request.messages = none) (hcts : request.contents = some contents) :
    (convertGeminiToOpenAI defaultModel request).messages.length = contents.length ∧
    ∀ i : Nat, (convertGeminiToOpenAI defaultModel request).messages[i]? =
      (contents[i]?).map fun content =>
        { role := if i % 2 = 0 then "user" else "assistant"
        , content := contentItemToString content } := by
  have hM : (convertGeminiToOpenAI defaultModel request).messages =
      contents.enum.map fun p =>
        ({ role := if p.1 % 2 = 0 then "user" else "assistant"
         , content := contentItemToString p.2 } : ChatMessage) := by
    simp [convertGeminiToOpenAI, hmsg, hcts]
  constructor
  · simp [hM, List.enum_length]
  · intro i
    rw [hM, List.getElem?_map, List.getElem?_enum]
    cases contents[i]? <;> rfl

/-- Witness for C3: contents `[a, 7, c]` yield roles
`[user, assistant, user]` with the non-string element stringified. -/
theorem convertGeminiToOpenAI_contents_parity_witness :
    (convertGeminiToOpenAI "deepseek-chat" demoContentsRequest).messages.length = 3 ∧
    (convertGeminiToOpenAI "deepseek-chat" demoContentsRequest).messages[0]? =
      some { role := "user", content := "a" } ∧
    (convertGeminiToOpenAI "deepseek-chat" demoContentsRequest).messages[1]? =
      some { role := "assistant", content := "7" } ∧
    (convertGeminiToOpenAI "deepseek-chat" demoContentsRequest).messages[2]? =
      some { role := "user", content := "c" } :=
  ⟨(convertGeminiToOpenAI_contents_parity "deepseek-chat" demoContentsRequest
      [.str "a", .other "7", .str "c"] rfl rfl).1.trans rfl,
   ((convertGeminiToOpenAI_contents_parity "deepseek-chat" demoContentsRequest
      [.str "a", .other "7", .str "c"] rfl rfl).2 0).trans rfl,
   ((convertGeminiToOpenAI_contents_parity "deepseek-chat" demoContentsRequest
      [.str "a", .other "7", .str "c"] rfl rfl).2 1).trans rfl,
   ((convertGeminiToOpenAI_contents_parity "deepseek-chat" demoContentsRequest
      [.str "a", .other "7", .str "c"] rfl rfl).2 2).trans rfl⟩

/-- C4: with an explicit message sequence present, the normalizer's output
message sequence is the input sequence unchanged. -/
theorem convertGeminiToOpenAI_messages_verbatim (defaultModel : String)
    (request : GenerateContentParameters) (ms : List ChatMessage)
    (hmsg : request.messages = some ms) :
    (convertGeminiToOpenAI defaultModel request).messages = ms := by
  simp [convertGeminiToOpenAI, hmsg]

/-- Witness for C4 at a concrete two-message request. -/
theorem convertGeminiToOpenAI_messages_verbatim_witness :
    (convertGeminiToOpenAI "deepseek-chat" demoMessagesRequest).messages =
      [{ role := "system", content := "be nice" }, { role := "user", content := "hi" }] :=
  convertGeminiToOpenAI_messages_verbatim "deepseek-chat" demoMessagesRequest _ rfl

/-- C5: the estimated token count is the ceiling of L/4 where L is the
length of the space-joined stringified contents; in particular
`["abcd", "efgh"]` joins to a 9-character string and yields 3 tokens. -/
theorem countTokens_ceil_div_four (request : CountTokensParameters) :
    (((countTokens request).totalTokens : ℤ) =
      Int.ceil (((String.intercalate " "
        (request.contents.map contentItemToString)).length : ℚ) / 4)) ∧
    (countTokens { model := "m"
                 , contents := [ContentItem.str "abcd", ContentItem.str "efgh"] }).totalTokens
      = 3 ∧
    (String.intercalate " "
      ([ContentItem.str "abcd", ContentItem.str "efgh"].map contentItemToString)).length = 9 := by
  refine ⟨?_, ?_, by decide⟩
  · simp only [countTokens]
    exact Int.toNat_of_nonneg (Int.ceil_nonneg (by positivity))
  · have hlen : (String.intercalate " "
        ([ContentItem.str "abcd", ContentItem.str "efgh"].map contentItemToString)).length = 9 := by
      decide
    simp only [countTokens, hlen]
    have hc : Int.ceil (((9:Nat) : ℚ)/4) = 3 := by
      rw [Int.ceil_eq_iff]
      norm_num
    rw [hc]
    rfl

/-- C6: in DeepSeek mode with no API key, construction fails with the
credential-missing error and no transport client is constructed. -/
theorem createContentGenerator_missing_apiKey (userAgent : String)
    (config : ContentGeneratorConfig)
    (hauth : config.authType = some AuthType.USE_DEEPSEEK)
    (hkey : config.apiKey = none) :
    createContentGenerator userAgent config =
      (.error "DeepSeek API key is required. Please set DEEPSEEK_API_KEY environment variable.",
       []) := by
  simp [createContentGenerator, hauth, hkey, jsFalsyStr]

/-- Witness for C6 at a concrete keyless DeepSeek config. -/
theorem createContentGenerator_missing_apiKey_witness :
    createContentGenerator "agent" demoMissingKeyConfig =
      (.error "DeepSeek API key is required. Please set DEEPSEEK_API_KEY environment variable.",
       []) :=
  createContentGenerator_missing_apiKey "agent" demoMissingKeyConfig rfl rfl

/-- C7: with an auth mode outside the supported dispatch arms,
construction fails with a configuration error naming the mode's value and
no transport client is constructed. -/
theorem createContentGenerator_unsupported_auth (userAgent : String)
    (config : ContentGeneratorConfig)
    (h1 : config.authType ≠ some AuthType.USE_DEEPSEEK)
    (h2 : config.authType ≠ some AuthType.LOGIN_WITH_GOOGLE)
    (h3 : config.authType ≠ some AuthType.CLOUD_SHELL) :
    createContentGenerator userAgent config =
      (.error ("Error creating contentGenerator: Unsupported authType: " ++
        authTypeInterp config.authType), []) := by
  simp [createContentGenerator, h1, h2, h3]

/-- Witness for C7: the legacy Gemini mode is dispatched to the failure
arm, and the error message names its value. -/
theorem createContentGenerator_unsupported_auth_witness :
    createContentGenerator "agent" demoUnsupportedConfig =
      (.error "Error creating contentGenerator: Unsupported authType: gemini-api-key", []) :=
  (createContentGenerator_unsupported_auth "agent" demoUnsupportedConfig
    (by decide) (by decide) (by decide)).trans rfl

/-- C8: embedding on the DeepSeek generator is total (the embedded
function cannot fail) and returns a 1536-element all-zero vector. -/
theorem embedContent_zero_vector (request : EmbedContentParameters) :
    (embedContent request).embedding.length = 1536 ∧
    ∀ x ∈ (embedContent request).embedding, x = 0 := by
  constructor
  · exact List.length_replicate _ _
  · intro x hx
    exact List.eq_of_mem_replicate hx

/-- Witness for C8 at a concrete embedding request. -/
theorem embedContent_zero_vector_witness :
    (embedContent demoEmbedRequest).embedding.length = 1536 ∧
    (embedContent demoEmbedRequest).embedding.get
      ⟨5, by rw [embedContent, List.length_replicate]; norm_num⟩ = 0 :=
  ⟨(embedContent_zero_vector demoEmbedRequest).1,
   (embedContent_zero_vector demoEmbedRequest).2 _ (List.get_mem _ _ _)⟩

/-- C10: an empty-string model override is falsy in `request.model ||
this.model`, so it is treated exactly like an absent model: the request
built for the transport carries the configured default model, both for
`generateContent` and for `generateContentStream`. -/
theorem convertGeminiToOpenAI_empty_model (defaultModel : String)
    (transport : ChatCompletionCreateParams → ChatCompletion)
    (streamTransport : ChatCompletionCreateParams → List StreamChunk)
    (request : GenerateContentParameters) (hmodel : request.model = some "") :
    (convertGeminiToOpenAI defaultModel request).model = defaultModel ∧
    convertGeminiToOpenAI defaultModel request =
      convertGeminiToOpenAI defaultModel { request with model := none } ∧
    generateContent defaultModel transport request =
      generateContent defaultModel transport { request with model := none } ∧
    generateContentStream defaultModel streamTransport request =
      generateContentStream defaultModel streamTransport { request with model := none } := by
  rcases request with ⟨c, m, ms, mt, t⟩
  obtain rfl : m = some "" := hmodel
  exact ⟨rfl, rfl, rfl, rfl⟩

/-- Witness for C10 at a concrete empty-model request and concrete
transports. -/
theorem convertGeminiToOpenAI_empty_model_witness :
    (convertGeminiToOpenAI "deepseek-chat" demoEmptyModelRequest).model = "deepseek-chat" ∧
    generateContent "deepseek-chat" demoTransport demoEmptyModelRequest =
      generateContent "deepseek-chat" demoTransport
        { demoEmptyModelRequest with model := none } :=
  ⟨(convertGeminiToOpenAI_empty_model "deepseek-chat" demoTransport demoStreamTransport
      demoEmptyModelRequest rfl).1,
   (convertGeminiToOpenAI_empty_model "deepseek-chat" demoTransport demoStreamTransport
      demoEmptyModelRequest rfl).2.2.1⟩
